import Mathlib

/-!
Shallow embedding of the Ansible lookup plugin
`plugins/lookup/google_secret_manager.py` (class `LookupModule`).

The plugin's two methods are modelled as pure Lean functions:

* `get_secret_value` — single-term resolution (source lines 169-214);
* `run` — batch resolution with policy validation and `join` (lines 126-167).

The Google Secret Manager client is modelled as a function from the
requested resource-path string to a `FetchOutcome`; the payload carried by a
successful fetch is the UTF-8-decoded text of `response.payload.data`
(decoding bytes is the service client's concern, outside the plugin).
Python exceptions escaping the plugin are modelled by `PyExn`; `json.loads`
is modelled by an executable JSON reader covering the JSON subset the
plugin's data can exercise in these claims (integer numerals, the standard
single-character escapes; `\u` escapes and float literals are out of the
modelled subset and yield a decode error).
-/

/-- Exceptions that can escape the plugin: `AnsibleError` raised by the
plugin itself, and uncaught Python exceptions (`TypeError` from ill-typed
membership/indexing, `KeyError` from mapping indexing, `JSONDecodeError`
from `json.loads`, or a service exception that is not a
`google.api_core.exceptions.ClientError` and hence matches none of the
`except` clauses).  `TypeError` messages model CPython's wording. -/
inductive PyExn where
  | ansibleError (msg : String)
  | typeError (msg : String)
  | keyError (key : String)
  | jsonDecodeError
  | serviceError (msg : String)
  deriving DecidableEq

/-- Classified outcome of `client.access_secret_version` on one resource
path: success with the UTF-8-decoded payload, `NotFound`,
`PermissionDenied`, another `ClientError` (caught and wrapped by the
plugin), or a non-`ClientError` exception (uncaught, propagates raw). -/
inductive FetchOutcome where
  | ok (payload : String)
  | notFound
  | permissionDenied
  | clientError (msg : String)
  | serviceError (msg : String)
  deriving DecidableEq

/-- Result of a single successful `get_secret_value` call: the returned
value (`None` is `none`) together with the warning, if any, written to the
display by the `warn` policies. -/
structure TermOut where
  value : Option String
  warning : Option String
  deriving DecidableEq

mutual
/-- JSON value as produced by Python's `json.loads`: objects keep their
(insertion-ordered, duplicate-free) field list. -/
inductive JValue where
  | jnull
  | jbool (b : Bool)
  | jnum (n : Int)
  | jstr (s : String)
  | jarr (xs : JList)
  | jobj (fs : JFields)
/-- List of JSON values (elements of a JSON array). -/
inductive JList where
  | nil
  | cons (x : JValue) (xs : JList)
/-- Field list of a JSON object, in insertion order. -/
inductive JFields where
  | nil
  | cons (k : String) (v : JValue) (fs : JFields)
end

/-- Append one value at the end of a `JList`. -/
def jlist_snoc : JList → JValue → JList
  | .nil, v => .cons v .nil
  | .cons x xs, v => .cons x (jlist_snoc xs v)

/-- Python `dict` update `d[k] = v`: replace the value in place if the key
is present, otherwise append the binding at the end. -/
def set_field : JFields → String → JValue → JFields
  | .nil, k, v => .cons k v .nil
  | .cons k0 v0 fs, k, v =>
    if k0 = k then .cons k0 v fs else .cons k0 v0 (set_field fs k v)

/-- First (hence, for parser-produced objects, only) value bound to a key. -/
def lookup_field : JFields → String → Option JValue
  | .nil, _ => none
  | .cons k0 v0 fs, k => if k0 = k then some v0 else lookup_field fs k

/-- Python `key in list` for a `str` key: some element equals the key
(a `str` compares equal only to an equal `str`). -/
def jlist_contains_str : JList → String → Bool
  | .nil, _ => false
  | .cons x xs, key =>
    (match x with
     | .jstr s => s == key
     | _ => false) || jlist_contains_str xs key

/-- Python `str.split(sep)` for a one-character separator, on char lists:
splitting the empty string yields one empty group. -/
def split_on_char (c : Char) : List Char → List (List Char)
  | [] => [[]]
  | x :: xs =>
    let r := split_on_char c xs
    if x = c then [] :: r
    else
      match r with
      | [] => [[x]]
      | g :: gs => (x :: g) :: gs

/-- Python `s.split('.')` (and generally `s.split(c)` for a single
character separator). -/
def py_split (s : String) (c : Char) : List String :=
  (split_on_char c s.data).map (fun l => String.mk l)

/-- Python `str.lower()` (ASCII range, which is all the plugin compares). -/
def py_lower (s : String) : String :=
  String.mk (s.data.map Char.toLower)

/-- Does `needle` occur at the head of `hay`? -/
def starts_with : List Char → List Char → Bool
  | [], _ => true
  | _ :: _, [] => false
  | a :: as, b :: bs => a == b && starts_with as bs

/-- Substring test on char lists (the empty needle occurs everywhere). -/
def py_in_str_chars (needle : List Char) : List Char → Bool
  | [] => needle.isEmpty
  | c :: rest => starts_with needle (c :: rest) || py_in_str_chars needle rest

/-- Python `needle in hay` for strings: substring containment. -/
def py_in_str (needle hay : String) : Bool :=
  py_in_str_chars needle.data hay.data

/-- Drop whitespace as Python's JSON reader does between tokens. -/
def skip_ws : List Char → List Char
  | c :: cs =>
    if c = ' ' ∨ c = '\t' ∨ c = '\n' ∨ c = '\r' then skip_ws cs else c :: cs
  | [] => []

/-- Escape table of the JSON string reader: the character after a
backslash paired with the character it denotes. -/
def esc_pairs : List (Char × Char) :=
  [('n', '\n'), ('t', '\t'), ('r', '\r'), ('b', Char.ofNat 8),
   ('f', Char.ofNat 12), ('"', '"'), ('\\', '\\'), ('/', '/')]

/-- Translation of a JSON string escape character (after a backslash).
The `\u` escape is outside the modelled subset. -/
def esc_char (e : Char) : Option Char :=
  (esc_pairs.find? (fun p => p.1 == e)).map (fun p => p.2)

/-- Read the body of a JSON string up to (and consuming) the closing
quote, returning the decoded characters and the rest of the input. -/
def parse_str_chars : List Char → Option (List Char × List Char)
  | [] => none
  | c :: rest =>
    if c = '"' then some ([], rest)
    else if c = '\\' then
      match rest with
      | [] => none
      | e :: rest2 =>
        match esc_char e with
        | some ec =>
          match parse_str_chars rest2 with
          | some (cs, r) => some (ec :: cs, r)
          | none => none
        | none => none
    else
      match parse_str_chars rest with
      | some (cs, r) => some (c :: cs, r)
      | none => none

/-- Longest leading run of decimal digits, and the rest. -/
def take_digits : List Char → List Char × List Char
  | [] => ([], [])
  | c :: cs =>
    if c.isDigit then
      match take_digits cs with
      | (ds, r) => (c :: ds, r)
    else ([], c :: cs)

/-- Numeric value of a digit run. -/
def digits_val (ds : List Char) : Nat :=
  ds.foldl (fun n c => n * 10 + (c.toNat - 48)) 0

/-- Read a nonempty run of digits as a natural number; a following `.`,
`e` or `E` would start a float literal, which is outside the modelled
subset. -/
def parse_nat_digits (input : List Char) : Option (Nat × List Char) :=
  match take_digits input with
  | ([], _) => none
  | (ds, r) =>
    match r with
    | c :: _ =>
      if c = '.' ∨ c = 'e' ∨ c = 'E' then none else some (digits_val ds, r)
    | [] => some (digits_val ds, [])

/-- Read a JSON integer numeral (optionally signed). -/
def parse_number (input : List Char) : Option (JValue × List Char) :=
  match input with
  | '-' :: rest =>
    (parse_nat_digits rest).map (fun p => (JValue.jnum (-(p.1 : Int)), p.2))
  | rest =>
    (parse_nat_digits rest).map (fun p => (JValue.jnum (p.1 : Int), p.2))

/-- Consume an expected literal character sequence. -/
def drop_lit : List Char → List Char → Option (List Char)
  | [], input => some input
  | c :: cs, d :: ds => if c = d then drop_lit cs ds else none
  | _ :: _, [] => none

mutual
/-- Fuel-indexed JSON value reader (the fuel strictly dominates nesting
depth; `json_loads` supplies enough for any input). -/
def parse_value : Nat → List Char → Option (JValue × List Char)
  | 0, _ => none
  | Nat.succ fuel, input =>
    match skip_ws input with
    | [] => none
    | c :: rest =>
      if c = '"' then
        match parse_str_chars rest with
        | some (cs, r) => some (JValue.jstr (String.mk cs), r)
        | none => none
      else if c = '\x7b' then
        match skip_ws rest with
        | c2 :: r2 =>
          if c2 = '\x7d' then some (JValue.jobj .nil, r2)
          else
            match parse_members fuel rest .nil with
            | some (fs, r3) => some (JValue.jobj fs, r3)
            | none => none
        | [] => none
      else if c = '[' then
        match skip_ws rest with
        | c2 :: r2 =>
          if c2 = ']' then some (JValue.jarr .nil, r2)
          else
            match parse_elems fuel rest .nil with
            | some (xs, r3) => some (JValue.jarr xs, r3)
            | none => none
        | [] => none
      else if c = 't' then (drop_lit "rue".data rest).map (fun r => (JValue.jbool true, r))
      else if c = 'f' then (drop_lit "alse".data rest).map (fun r => (JValue.jbool false, r))
      else if c = 'n' then (drop_lit "ull".data rest).map (fun r => (JValue.jnull, r))
      else if c = '-' ∨ c.isDigit then parse_number (c :: rest)
      else none
/-- Read the members of a JSON object after the opening brace (input not
yet whitespace-stripped, at least one member present). -/
def parse_members : Nat → List Char → JFields → Option (JFields × List Char)
  | 0, _, _ => none
  | Nat.succ fuel, input, acc =>
    match skip_ws input with
    | c :: rest =>
      if c = '"' then
        match parse_str_chars rest with
        | some (kcs, r1) =>
          match skip_ws r1 with
          | c2 :: r2 =>
            if c2 = ':' then
              match parse_value fuel r2 with
              | some (v, r3) =>
                match skip_ws r3 with
                | c4 :: r4 =>
                  if c4 = ',' then parse_members fuel r4 (set_field acc (String.mk kcs) v)
                  else if c4 = '\x7d' then some (set_field acc (String.mk kcs) v, r4)
                  else none
                | [] => none
              | none => none
            else none
          | [] => none
        | none => none
      else none
    | [] => none
/-- Read the elements of a JSON array after the opening bracket (at least
one element present). -/
def parse_elems : Nat → List Char → JList → Option (JList × List Char)
  | 0, _, _ => none
  | Nat.succ fuel, input, acc =>
    match parse_value fuel input with
    | some (v, r) =>
      match skip_ws r with
      | c :: r2 =>
        if c = ',' then parse_elems fuel r2 (jlist_snoc acc v)
        else if c = ']' then some (jlist_snoc acc v, r2)
        else none
      | [] => none
    | none => none
end

/-- Model of Python `json.loads`: read one JSON value and require only
whitespace to remain; any failure is a `JSONDecodeError` (a `ValueError`,
not caught by the plugin's `except` clauses). -/
def json_loads (s : String) : Except PyExn JValue :=
  match parse_value (s.length + 1) s.data with
  | some (v, rest) =>
    if (skip_ws rest).isEmpty then .ok v else .error PyExn.jsonDecodeError
  | none => .error PyExn.jsonDecodeError

/-- Decimal digits of a positive natural, fuel-indexed (any fuel above the
digit count, e.g. `n + 1`, is enough). -/
def nat_digits_aux : Nat → Nat → List Char
  | 0, _ => []
  | Nat.succ fuel, n =>
    if n = 0 then [] else nat_digits_aux fuel (n / 10) ++ [Char.ofNat (48 + n % 10)]

/-- Python `str(n)` for a natural number. -/
def py_str_of_nat (n : Nat) : String :=
  if n = 0 then "0" else String.mk (nat_digits_aux (n + 1) n)

/-- Python `str(n)` for an integer. -/
def py_str_of_int : Int → String
  | .ofNat m => py_str_of_nat m
  | .negSucc m => "-" ++ py_str_of_nat (m + 1)

/-- Comma-space separated concatenation, as inside Python container
reprs. -/
def join_comma : List String → String
  | [] => ""
  | [s] => s
  | s :: rest => s ++ ", " ++ join_comma rest

mutual
/-- Python `repr` of a JSON-derived value (strings modelled without
re-escaping, i.e. for strings free of quote characters, which is all the
claims exercise). -/
def py_repr : JValue → String
  | .jnull => "None"
  | .jbool true => "True"
  | .jbool false => "False"
  | .jnum n => py_str_of_int n
  | .jstr s => "\x27" ++ s ++ "\x27"
  | .jarr xs => "[" ++ join_comma (py_repr_list xs) ++ "]"
  | .jobj fs => "\x7b" ++ join_comma (py_repr_fields fs) ++ "\x7d"
/-- Reprs of the elements of an array. -/
def py_repr_list : JList → List String
  | .nil => []
  | .cons x xs => py_repr x :: py_repr_list xs
/-- Reprs of the fields of an object (`'key': value`). -/
def py_repr_fields : JFields → List String
  | .nil => []
  | .cons k v fs => ("\x27" ++ k ++ "\x27: " ++ py_repr v) :: py_repr_fields fs
end

/-- Python `str(v)`: a string is returned as itself, every other value by
its repr. -/
def py_str (v : JValue) : String :=
  match v with
  | .jstr s => s
  | v => py_repr v

/-- Fatal message raised by the nested walk when a key is absent
(source line 195-196). -/
def no_key_msg (key : String) : String :=
  "Successfully retrieved secret but there exists no key " ++ key ++ " in the secret"

/-- Python `key in v` for a `str` key over a JSON-derived value: key
membership for a dict, substring test for a str, element membership for a
list, and a `TypeError` for the non-iterable scalars. -/
def py_contains (v : JValue) (key : String) : Except PyExn Bool :=
  match v with
  | .jobj fs => .ok (lookup_field fs key).isSome
  | .jstr s => .ok (py_in_str key s)
  | .jarr xs => .ok (jlist_contains_str xs key)
  | .jnum _ => .error (.typeError "argument of type \x27int\x27 is not iterable")
  | .jbool _ => .error (.typeError "argument of type \x27bool\x27 is not iterable")
  | .jnull => .error (.typeError "argument of type \x27NoneType\x27 is not iterable")

/-- Python `v[key]` for a `str` key: dict lookup (a `KeyError` when the
key is absent), and a `TypeError` for every non-dict value. -/
def py_index (v : JValue) (key : String) : Except PyExn JValue :=
  match v with
  | .jobj fs =>
    match lookup_field fs key with
    | some x => .ok x
    | none => .error (.keyError key)
  | .jstr _ => .error (.typeError "string indices must be integers")
  | .jarr _ => .error (.typeError "list indices must be integers or slices, not str")
  | .jnum _ => .error (.typeError "\x27int\x27 object is not subscriptable")
  | .jbool _ => .error (.typeError "\x27bool\x27 object is not subscriptable")
  | .jnull => .error (.typeError "\x27NoneType\x27 object is not subscriptable")

/-- The key walk of `get_secret_value` (source lines 190-196): for each
key, `if key in ret_val: ret_val = ret_val[key] else: raise AnsibleError
(no_key_msg key)`. -/
def nested_walk : JValue → List String → Except PyExn JValue
  | v, [] => .ok v
  | v, key :: rest =>
    match py_contains v key with
    | .error e => .error e
    | .ok true =>
      match py_index v key with
      | .error e => .error e
      | .ok v2 => nested_walk v2 rest
    | .ok false => .error (.ansibleError (no_key_msg key))

/-- Resource path computed by lines 171-181: `projects/{project_id}/
secrets/{secret_name}/versions/{version_id}`, where `secret_name` is the
part of the term before the first dot when `nested`, and a falsy (empty)
`version_id` is replaced by `latest`. -/
def resource_name (term project_id version_id : String) (nested : Bool) : String :=
  let parent := "projects/" ++ project_id ++ "/secrets"
  let secret_name := if nested then ((py_split term '.').headD term) else term
  let base := parent ++ "/" ++ secret_name ++ "/versions"
  if version_id ≠ "" then base ++ "/" ++ version_id else base ++ "/latest"

/-- Message of the nested-syntax configuration error (source line 175). -/
def nested_syntax_msg : String :=
  "Nested query must use the following syntax: `aws_secret_name.<key_name>.<key_name>"

/-- Embedding of `LookupModule.get_secret_value` (source lines 169-214).
The client is a function from the resource path to the classified fetch
outcome.  `on_missing` and `on_denied` arrive already lowercased (as `run`
passes them). -/
def get_secret_value (term : String) (client : String → FetchOutcome)
    (project_id version_id on_missing on_denied : String) (nested : Bool) :
    Except PyExn TermOut :=
  if nested ∧ (py_split term '.').length < 2 then
    .error (.ansibleError nested_syntax_msg)
  else
    match client (resource_name term project_id version_id nested) with
    | .ok payload =>
      if nested then
        match json_loads payload with
        | .error e => .error e
        | .ok j =>
          match nested_walk j ((py_split term '.').drop 1) with
          | .ok v => .ok ⟨some (py_str v), none⟩
          | .error e => .error e
      else .ok ⟨some payload, none⟩
    | .notFound =>
      if on_missing = "error" then
        .error (.ansibleError ("Failed to find secret " ++ term ++ " (ResourceNotFound)"))
      else if on_missing = "warn" then
        .ok ⟨none, some ("Skipping, did not find secret " ++ term)⟩
      else .ok ⟨none, none⟩
    | .permissionDenied =>
      if on_denied = "error" then
        .error (.ansibleError ("Failed to access secret " ++ term ++ " (AccessDenied)"))
      else if on_denied = "warn" then
        .ok ⟨none, some ("Skipping, access denied for secret " ++ term)⟩
      else .ok ⟨none, none⟩
    | .clientError msg => .error (.ansibleError ("Failed to retrieve secret: " ++ msg))
    | .serviceError msg => .error (.serviceError msg)

/-- The term loop of `run` (source lines 156-161): resolve each term in
order, appending truthy (non-`None`, nonempty) values; a raised exception
aborts the whole loop.  Returns the collected secrets together with the
warnings emitted along the way. -/
def run_loop (client : String → FetchOutcome)
    (project_id version_id missing denied : String) (nested : Bool) :
    List String → Except PyExn (List String × List String)
  | [] => .ok ([], [])
  | term :: rest =>
    match get_secret_value term client project_id version_id missing denied nested with
    | .error e => .error e
    | .ok r =>
      match run_loop client project_id version_id missing denied nested rest with
      | .error e => .error e
      | .ok (vs, ws) =>
        .ok ((match r.value with
              | some v => if v ≠ "" then v :: vs else vs
              | none => vs),
             (match r.warning with
              | some w => w :: ws
              | none => ws))

/-- Validation message of lines 147-148 and 151-152 (with the lowercased
value interpolated). -/
def policy_msg (opt val : String) : String :=
  "\"" ++ opt ++ "\" must be a string and one of \"error\", \"warn\" or \"skip\", not " ++ val

/-- Embedding of `LookupModule.run` (source lines 126-167): lowercase and
validate the two policies, resolve every term in order, and either return
the collected values or, under `join`, the single-element list holding
their separator-free concatenation. -/
def run (project_id : String) (terms : List String) (client : String → FetchOutcome)
    (nested join : Bool) (version_id on_missing on_denied : String) :
    Except PyExn (List String × List String) :=
  let missing := py_lower on_missing
  if missing ∉ (["error", "warn", "skip"] : List String) then
    .error (.ansibleError (policy_msg "on_missing" missing))
  else
    let denied := py_lower on_denied
    if denied ∉ (["error", "warn", "skip"] : List String) then
      .error (.ansibleError (policy_msg "on_denied" denied))
    else
      match run_loop client project_id version_id missing denied nested terms with
      | .error e => .error e
      | .ok (secrets, ws) =>
        if join then .ok ([String.join secrets], ws) else .ok (secrets, ws)

/-- Default of the `version_id` keyword in `run`'s signature
(source line 126). -/
def run_default_version_id : String := "latest"

deriving instance DecidableEq for Except

/-- Client stub answering every path with the same payload. -/
def clientConst (payload : String) : String → FetchOutcome := fun _ => .ok payload

/-- Client stub holding secrets `a = "x"` and `b = "y"` in project `P`. -/
def clientAB : String → FetchOutcome := fun name =>
  if name = "projects/P/secrets/a/versions/latest" then .ok "x"
  else if name = "projects/P/secrets/b/versions/latest" then .ok "y"
  else .notFound

/-- C1: for a term whose fetch reports NotFound, `on_missing` decides the
result — `error` raises a fatal `AnsibleError` naming the term, `warn`
yields no value plus a warning, `skip` silently yields no value; a
PermissionDenied fetch is governed identically by `on_denied`; and any
other client or service error from the fetch is fatal regardless of either
policy (another `ClientError` is wrapped in an `AnsibleError`, any other
service exception propagates raw). -/
theorem c1_fetch_policy_table
    (term project_id version_id on_missing on_denied : String)
    (nested : Bool) (client : String → FetchOutcome)
    (hsyn : nested = true → 2 ≤ (py_split term '.').length) :
    (client (resource_name term project_id version_id nested) = .notFound →
      (on_missing = "error" →
        get_secret_value term client project_id version_id on_missing on_denied nested
          = .error (.ansibleError ("Failed to find secret " ++ term ++ " (ResourceNotFound)")))
      ∧ (on_missing = "warn" →
        get_secret_value term client project_id version_id on_missing on_denied nested
          = .ok ⟨none, some ("Skipping, did not find secret " ++ term)⟩)
      ∧ (on_missing = "skip" →
        get_secret_value term client project_id version_id on_missing on_denied nested
          = .ok ⟨none, none⟩))
    ∧ (client (resource_name term project_id version_id nested) = .permissionDenied →
      (on_denied = "error" →
        get_secret_value term client project_id version_id on_missing on_denied nested
          = .error (.ansibleError ("Failed to access secret " ++ term ++ " (AccessDenied)")))
      ∧ (on_denied = "warn" →
        get_secret_value term client project_id version_id on_missing on_denied nested
          = .ok ⟨none, some ("Skipping, access denied for secret " ++ term)⟩)
      ∧ (on_denied = "skip" →
        get_secret_value term client project_id version_id on_missing on_denied nested
          = .ok ⟨none, none⟩))
    ∧ (∀ msg, client (resource_name term project_id version_id nested) = .clientError msg →
        get_secret_value term client project_id version_id on_missing on_denied nested
          = .error (.ansibleError ("Failed to retrieve secret: " ++ msg)))
    ∧ (∀ msg, client (resource_name term project_id version_id nested) = .serviceError msg →
        get_secret_value term client project_id version_id on_missing on_denied nested
          = .error (.serviceError msg)) := by
  have hcond : ¬ (nested = true ∧ (py_split term '.').length < 2) := by
    rintro ⟨h1, h2⟩
    have := hsyn h1
    omega
  refine ⟨?_, ?_, ?_, ?_⟩
  · intro hcl
    refine ⟨?_, ?_, ?_⟩ <;> intro hpol <;> subst hpol <;>
      simp [get_secret_value, hcond, hcl]
  · intro hcl
    refine ⟨?_, ?_, ?_⟩ <;> intro hpol <;> subst hpol <;>
      simp [get_secret_value, hcond, hcl]
  · intro msg hcl
    simp [get_secret_value, hcond, hcl]
  · intro msg hcl
    simp [get_secret_value, hcond, hcl]

/-- Witness for C1: a NotFound fetch under `on_missing = "warn"` yields no
value and the warning, at a concrete input. -/
theorem c1_fetch_policy_table_witness :
    get_secret_value "db" (fun _ => .notFound) "P" "latest" "warn" "skip" false
      = .ok ⟨none, some "Skipping, did not find secret db"⟩ :=
  ((c1_fetch_policy_table "db" "P" "latest" "warn" "skip" false (fun _ => .notFound)
      (by decide)).1 rfl).2.1 rfl

/-- C3: a non-nested term is fetched at exactly
`projects/{project_id}/secrets/{term}/versions/{version_id}`; an
unsupplied `version_id` means the literal `latest` (both as the keyword's
default in `run`'s signature and for a falsy value at path-building time);
and the resolved value is the decoded payload verbatim, whatever the
policies. -/
theorem c3_resource_path (term project_id version_id payload : String)
    (client : String → FetchOutcome) (hv : version_id ≠ "")
    (hcl : client ("projects/" ++ project_id ++ "/secrets/" ++ term ++ "/versions/" ++ version_id)
             = .ok payload) :
    resource_name term project_id version_id false
      = "projects/" ++ project_id ++ "/secrets/" ++ term ++ "/versions/" ++ version_id
    ∧ resource_name term project_id "" false
      = "projects/" ++ project_id ++ "/secrets/" ++ term ++ "/versions/latest"
    ∧ run_default_version_id = "latest"
    ∧ (∀ on_missing on_denied,
        get_secret_value term client project_id version_id on_missing on_denied false
          = .ok ⟨some payload, none⟩) := by
  have hpath : resource_name term project_id version_id false
      = "projects/" ++ project_id ++ "/secrets/" ++ term ++ "/versions/" ++ version_id := by
    simp only [resource_name, if_pos hv]
    apply String.ext
    simp [String.data_append]
  refine ⟨hpath, ?_, rfl, ?_⟩
  · simp only [resource_name, ne_eq, not_true_eq_false, if_neg, ite_false]
    apply String.ext
    simp [String.data_append]
  · intro on_missing on_denied
    simp [get_secret_value, hpath, hcl]

/-- Witness for C3: concrete fetch of `projects/P/secrets/foo/versions/v7`
returning the payload verbatim. -/
theorem c3_resource_path_witness :
    get_secret_value "foo" (fun name =>
        if name = "projects/P/secrets/foo/versions/v7" then .ok "s3cr3t" else .notFound)
      "P" "v7" "error" "error" false = .ok ⟨some "s3cr3t", none⟩ :=
  (c3_resource_path "foo" "P" "v7" "s3cr3t" (fun name =>
        if name = "projects/P/secrets/foo/versions/v7" then .ok "s3cr3t" else .notFound)
      (by decide) (by decide)).2.2.2 "error" "error"

/-- C5: a nested term with fewer than two dot-separated segments fails
with the configuration error naming the required syntax, for every client
(no fetch is consulted) and every policy pair (never subject to
`on_missing`/`on_denied`). -/
theorem c5_nested_syntax_error (term project_id version_id : String)
    (h : (py_split term '.').length < 2) :
    ∀ (client : String → FetchOutcome) (on_missing on_denied : String),
      get_secret_value term client project_id version_id on_missing on_denied true
        = .error (.ansibleError nested_syntax_msg) := by
  intro client on_missing on_denied
  simp [get_secret_value, h]

/-- Witness for C5: the dotless term `foo` under `nested=true` raises the
syntax error even with both policies `skip` and a client that would
succeed. -/
theorem c5_nested_syntax_error_witness :
    get_secret_value "foo" (clientConst "payload") "P" "latest" "skip" "skip" true
      = .error (.ansibleError nested_syntax_msg) :=
  c5_nested_syntax_error "foo" "P" "latest" (by decide) (clientConst "payload") "skip" "skip"

/-- C2 counterexample: for term `foo.bar.baz` over payload
`{"bar": "baz"}` the second walk step meets the non-mapping value
`"baz"`; the claim mandates the hard error `no key baz in the secret`,
but the code's membership test succeeds on the substring and the
subsequent string indexing raises an uncaught `TypeError` instead. -/
theorem c2_counterexample_nonmapping :
    get_secret_value "foo.bar.baz" (clientConst "\x7b\"bar\": \"baz\"\x7d")
      "P" "latest" "error" "error" true
      = .error (.typeError "string indices must be integers")
    ∧ get_secret_value "foo.bar.baz" (clientConst "\x7b\"bar\": \"baz\"\x7d")
      "P" "latest" "error" "error" true
      ≠ .error (.ansibleError (no_key_msg "baz")) := by decide

/-- C2 (amended): under `nested=true` the decoded payload is parsed as
JSON and walked with the dot-separated segments of the term after the
first dot.  At each step the code tests Python membership `key in current`
and then indexes: for an object the walk descends exactly when the key is
a field, and an absent membership (object without the key, string without
the key as a substring, array without the key as an element) raises the
hard error `no key {key} in the secret`, never subject to
`on_missing`/`on_denied`; but when membership holds on a non-object
(string with the key as substring, array containing the key) the indexing
raises an uncaught `TypeError`, as does the membership test itself on the
scalar values.  After all keys are consumed the final value is returned as
its string representation (term `foo.bar.baz` over payload
`{"bar":{"baz":42}}` yields the string `42`). -/
theorem c2_nested_walk_amended :
    (∀ (term project_id version_id on_missing on_denied payload : String)
       (client : String → FetchOutcome) (j : JValue),
       2 ≤ (py_split term '.').length →
       client (resource_name term project_id version_id true) = .ok payload →
       json_loads payload = .ok j →
       get_secret_value term client project_id version_id on_missing on_denied true
         = match nested_walk j ((py_split term '.').drop 1) with
           | .ok v => .ok ⟨some (py_str v), none⟩
           | .error e => .error e)
    ∧ (∀ (j : JValue), nested_walk j [] = .ok j)
    ∧ (∀ (fs : JFields) (key : String) (rest : List String) (v : JValue),
        lookup_field fs key = some v →
        nested_walk (.jobj fs) (key :: rest) = nested_walk v rest)
    ∧ (∀ (fs : JFields) (key : String) (rest : List String),
        lookup_field fs key = none →
        nested_walk (.jobj fs) (key :: rest) = .error (.ansibleError (no_key_msg key)))
    ∧ (∀ (s key : String) (rest : List String),
        py_in_str key s = false →
        nested_walk (.jstr s) (key :: rest) = .error (.ansibleError (no_key_msg key)))
    ∧ (∀ (s key : String) (rest : List String),
        py_in_str key s = true →
        nested_walk (.jstr s) (key :: rest)
          = .error (.typeError "string indices must be integers"))
    ∧ (∀ (xs : JList) (key : String) (rest : List String),
        jlist_contains_str xs key = false →
        nested_walk (.jarr xs) (key :: rest) = .error (.ansibleError (no_key_msg key)))
    ∧ (∀ (xs : JList) (key : String) (rest : List String),
        jlist_contains_str xs key = true →
        nested_walk (.jarr xs) (key :: rest)
          = .error (.typeError "list indices must be integers or slices, not str"))
    ∧ (∀ (n : Int) (key : String) (rest : List String),
        nested_walk (.jnum n) (key :: rest)
          = .error (.typeError "argument of type \x27int\x27 is not iterable"))
    ∧ (∀ (b : Bool) (key : String) (rest : List String),
        nested_walk (.jbool b) (key :: rest)
          = .error (.typeError "argument of type \x27bool\x27 is not iterable"))
    ∧ (∀ (key : String) (rest : List String),
        nested_walk .jnull (key :: rest)
          = .error (.typeError "argument of type \x27NoneType\x27 is not iterable"))
    ∧ get_secret_value "foo.bar.baz" (clientConst "\x7b\"bar\":\x7b\"baz\":42\x7d\x7d")
        "P" "latest" "error" "error" true = .ok ⟨some "42", none⟩ := by
  refine ⟨?_, ?_, ?_, ?_, ?_, ?_, ?_, ?_, ?_, ?_, ?_, by decide⟩
  · intro term project_id version_id on_missing on_denied payload client j hlen hcl hjson
    have hcond : ¬ (True ∧ (py_split term '.').length < 2) := by
      rintro ⟨-, h2⟩
      omega
    simp only [get_secret_value, hcl, hjson]
    simp [hcond]
  · intro j
    simp [nested_walk]
  · intro fs key rest v h
    simp [nested_walk, py_contains, py_index, h]
  · intro fs key rest h
    simp [nested_walk, py_contains, h]
  · intro s key rest h
    simp [nested_walk, py_contains, h]
  · intro s key rest h
    simp [nested_walk, py_contains, py_index, h]
  · intro xs key rest h
    simp [nested_walk, py_contains, h]
  · intro xs key rest h
    simp [nested_walk, py_contains, py_index, h]
  · intro n key rest
    simp [nested_walk, py_contains]
  · intro b key rest
    simp [nested_walk, py_contains]
  · intro key rest
    simp [nested_walk, py_contains]

/-- Witness for C2 (amended): one object step descends into the bound
value at a concrete input. -/
theorem c2_nested_walk_amended_witness :
    nested_walk (.jobj (.cons "k" (.jnum 5) .nil)) ["k"] = nested_walk (.jnum 5) [] :=
  c2_nested_walk_amended.2.2.1 (.cons "k" (.jnum 5) .nil) "k" [] (.jnum 5) rfl

/-- C4: when the lowercased `on_missing` is not one of error/warn/skip,
`run` raises the configuration error for every client and every terms
list (so before any network access and any per-term processing); when
`on_missing` passes but `on_denied` does not, likewise for `on_denied`;
and when both lowercased policies are in the valid set, validation
succeeds and an empty batch completes normally. -/
theorem c4_policy_validation (project_id version_id on_missing on_denied : String)
    (terms : List String) (client : String → FetchOutcome) (nested join : Bool) :
    (py_lower on_missing ∉ (["error", "warn", "skip"] : List String) →
      run project_id terms client nested join version_id on_missing on_denied
        = .error (.ansibleError (policy_msg "on_missing" (py_lower on_missing))))
    ∧ (py_lower on_missing ∈ (["error", "warn", "skip"] : List String) →
       py_lower on_denied ∉ (["error", "warn", "skip"] : List String) →
      run project_id terms client nested join version_id on_missing on_denied
        = .error (.ansibleError (policy_msg "on_denied" (py_lower on_denied))))
    ∧ (py_lower on_missing ∈ (["error", "warn", "skip"] : List String) →
       py_lower on_denied ∈ (["error", "warn", "skip"] : List String) →
      run project_id [] client nested join version_id on_missing on_denied
        = .ok ((if join then [""] else []), [])) := by
  refine ⟨?_, ?_, ?_⟩
  · intro h
    simp [run, h]
  · intro h1 h2
    simp [run, h1, h2]
  · intro h1 h2
    cases join <;> simp [run, run_loop, h1, h2, String.join]

/-- Witness for C4: the invalid value `fatal` is rejected up front at a
concrete input, while the mixed-case pair `ERROR`/`Skip` passes validation
and an empty batch returns the empty result. -/
theorem c4_policy_validation_witness :
    run "P" ["a"] clientAB false false "latest" "fatal" "error"
      = .error (.ansibleError (policy_msg "on_missing" "fatal"))
    ∧ run "P" [] clientAB false false "latest" "ERROR" "Skip" = .ok ([], []) :=
  ⟨(c4_policy_validation "P" "latest" "fatal" "error" ["a"] clientAB false false).1
      (by decide),
   by
     have h := (c4_policy_validation "P" "latest" "ERROR" "Skip" [] clientAB false false).2.2
       (by decide) (by decide)
     simpa using h⟩

/-- C6: when a batch resolves to `vals` under `join=false`, the same batch
under `join=true` returns the single-element list holding the
separator-free concatenation of `vals`, warnings unchanged. -/
theorem c6_join_concatenation (project_id version_id on_missing on_denied : String)
    (terms : List String) (client : String → FetchOutcome) (nested : Bool)
    (vals ws : List String)
    (h : run project_id terms client nested false version_id on_missing on_denied
           = .ok (vals, ws)) :
    run project_id terms client nested true version_id on_missing on_denied
      = .ok ([String.join vals], ws) := by
  simp only [run] at h ⊢
  by_cases h1 : py_lower on_missing ∈ (["error", "warn", "skip"] : List String)
  · by_cases h2 : py_lower on_denied ∈ (["error", "warn", "skip"] : List String)
    · rw [if_neg (not_not_intro h1), if_neg (not_not_intro h2)] at h ⊢
      revert h
      cases hr : run_loop client project_id version_id (py_lower on_missing)
          (py_lower on_denied) nested terms with
      | error e => intro h; cases h
      | ok p =>
        obtain ⟨secrets, ws2⟩ := p
        intro h
        have h' : secrets = vals ∧ ws2 = ws := by simpa using h
        rw [h'.1, h'.2]
        simp
    · rw [if_neg (not_not_intro h1), if_pos h2] at h
      cases h
  · rw [if_pos h1] at h
    cases h

/-- Witness for C6: terms `a` and `b` resolving to `x` and `y` give
`["x", "y"]` without join and `["xy"]` with join. -/
theorem c6_join_concatenation_witness :
    run "P" ["a", "b"] clientAB false false "latest" "error" "error" = .ok (["x", "y"], [])
    ∧ run "P" ["a", "b"] clientAB false true "latest" "error" "error" = .ok (["xy"], []) :=
  ⟨by decide,
   c6_join_concatenation "P" "latest" "error" "error" ["a", "b"] clientAB false
     ["x", "y"] [] (by decide)⟩

/-- C7 counterexample: an empty terms sequence under `join=true` does not
give an empty result — it gives the single-element sequence holding the
empty concatenation. -/
theorem c7_counterexample_empty_join :
    run "P" [] clientAB false true "latest" "error" "error" = .ok ([""], [])
    ∧ ([""] : List String) ≠ ([] : List String) := by decide

/-- Per-term resolution of a batch, in input order, keeping every term's
result; an exception aborts (spec-side harness used to state
order-preservation and omission). -/
def resolve_all (client : String → FetchOutcome)
    (project_id version_id missing denied : String) (nested : Bool) :
    List String → Except PyExn (List TermOut)
  | [] => .ok []
  | t :: ts =>
    match get_secret_value t client project_id version_id missing denied nested with
    | .error e => .error e
    | .ok r =>
      match resolve_all client project_id version_id missing denied nested ts with
      | .error e => .error e
      | .ok rs => .ok (r :: rs)

/-- Values a result list contributes to the output, in order: the truthy
(present and nonempty) values only. -/
def out_values (rs : List TermOut) : List String :=
  rs.filterMap (fun r =>
    match r.value with
    | some s => if s ≠ "" then some s else none
    | none => none)

/-- Warnings a result list emits, in order. -/
def out_warnings (rs : List TermOut) : List String :=
  rs.filterMap (fun r => r.warning)

/-- The term loop is exactly per-term resolution in input order followed
by the truthiness filter, with order preserved. -/
theorem run_loop_eq_per_term (client : String → FetchOutcome)
    (project_id version_id missing denied : String) (nested : Bool)
    (terms : List String) :
    run_loop client project_id version_id missing denied nested terms
      = match resolve_all client project_id version_id missing denied nested terms with
        | .error e => .error e
        | .ok rs => .ok (out_values rs, out_warnings rs) := by
  induction terms with
  | nil => simp [run_loop, resolve_all, out_values, out_warnings]
  | cons t ts ih =>
    simp only [run_loop, resolve_all, ih]
    cases get_secret_value t client project_id version_id missing denied nested with
    | error e => rfl
    | ok r =>
      cases resolve_all client project_id version_id missing denied nested ts with
      | error e => rfl
      | ok rs =>
        rcases r with ⟨v, w⟩
        cases v <;> cases w <;>
          simp [out_values, out_warnings, List.filterMap_cons] <;> split <;> simp

/-- C7 (amended): with valid policies and `join=false`, `run` equals
per-term resolution of the terms in input order followed by the
truthiness filter — the output lists values in input order and skipped
terms are omitted entirely, with no placeholder entries; an empty terms
sequence yields the empty result under `join=false` (under `join=true` it
yields the single-element sequence holding the empty string). -/
theorem c7_order_omission_amended (project_id version_id on_missing on_denied : String)
    (client : String → FetchOutcome) (nested : Bool)
    (hm : py_lower on_missing ∈ (["error", "warn", "skip"] : List String))
    (hd : py_lower on_denied ∈ (["error", "warn", "skip"] : List String)) :
    (∀ terms, run project_id terms client nested false version_id on_missing on_denied
      = match resolve_all client project_id version_id (py_lower on_missing)
            (py_lower on_denied) nested terms with
        | .error e => .error e
        | .ok rs => .ok (out_values rs, out_warnings rs))
    ∧ run project_id [] client nested false version_id on_missing on_denied = .ok ([], [])
    ∧ run project_id [] client nested true version_id on_missing on_denied = .ok ([""], []) := by
  have hrun : ∀ (join : Bool) (terms : List String),
      run project_id terms client nested join version_id on_missing on_denied
        = match run_loop client project_id version_id (py_lower on_missing)
              (py_lower on_denied) nested terms with
          | .error e => .error e
          | .ok (secrets, ws) =>
            if join then .ok ([String.join secrets], ws) else .ok (secrets, ws) := by
    intro join terms
    simp only [run, if_neg (not_not_intro hm), if_neg (not_not_intro hd)]
  refine ⟨?_, ?_, ?_⟩
  · intro terms
    rw [hrun false terms, run_loop_eq_per_term]
    cases resolve_all client project_id version_id (py_lower on_missing)
        (py_lower on_denied) nested terms with
    | error e => rfl
    | ok rs => simp
  · rw [hrun false []]
    simp [run_loop]
  · rw [hrun true []]
    simp [run_loop, String.join]

/-- Witness for C7 (amended): terms `a`, `zz`, `b` with `zz` missing under
`on_missing=skip` resolve, in order and with the missing term omitted, to
`["x", "y"]`. -/
theorem c7_order_omission_amended_witness :
    run "P" ["a", "zz", "b"] clientAB false false "latest" "skip" "skip"
      = .ok (["x", "y"], []) := by
  have h := (c7_order_omission_amended "P" "latest" "skip" "skip" clientAB false
      (by decide) (by decide)).1 ["a", "zz", "b"]
  rw [h]
  decide

/-- C8 counterexample: the nested-syntax configuration error for term
`foo` aborts the call, but its message does not identify the failing term
(`foo` does not occur in it). -/
theorem c8_counterexample_unnamed_term :
    run "P" ["foo"] clientAB true false "latest" "error" "error"
      = .error (.ansibleError nested_syntax_msg)
    ∧ py_in_str "foo" nested_syntax_msg = false := by decide

/-- C8 (amended): any exception raised while processing a term — a
configuration error, a policy `error` outcome, or an unclassified
client/service error — terminates the whole call with that very error:
whatever terms remain after the failing one, the call returns no partial
results. -/
theorem c8_fatal_abort_amended (project_id version_id on_missing on_denied : String)
    (client : String → FetchOutcome) (nested join : Bool)
    (ts1 ts2 : List String) (t : String) (e : PyExn)
    (hm : py_lower on_missing ∈ (["error", "warn", "skip"] : List String))
    (hd : py_lower on_denied ∈ (["error", "warn", "skip"] : List String))
    (hok : ∀ t2 ∈ ts1, ∃ r, get_secret_value t2 client project_id version_id
             (py_lower on_missing) (py_lower on_denied) nested = .ok r)
    (he : get_secret_value t client project_id version_id
            (py_lower on_missing) (py_lower on_denied) nested = .error e) :
    run project_id (ts1 ++ t :: ts2) client nested join version_id on_missing on_denied
      = .error e := by
  have hloop : ∀ l1 : List String,
      (∀ t2 ∈ l1, ∃ r, get_secret_value t2 client project_id version_id
         (py_lower on_missing) (py_lower on_denied) nested = .ok r) →
      run_loop client project_id version_id (py_lower on_missing) (py_lower on_denied)
        nested (l1 ++ t :: ts2) = .error e := by
    intro l1
    induction l1 with
    | nil =>
      intro _
      simp [run_loop, he]
    | cons a l ih =>
      intro hall
      obtain ⟨r, hr⟩ := hall a (by simp)
      have htail := ih (fun x hx => hall x (by simp [hx]))
      simp [run_loop, hr, htail]
  simp only [run, if_neg (not_not_intro hm), if_neg (not_not_intro hd), hloop ts1 hok]

/-- Witness for C8 (amended): after `a` resolves, the missing `zz` under
`on_missing=error` aborts the whole batch, `b` unprocessed. -/
theorem c8_fatal_abort_amended_witness :
    run "P" ["a", "zz", "b"] clientAB false false "latest" "error" "error"
      = .error (.ansibleError "Failed to find secret zz (ResourceNotFound)") :=
  c8_fatal_abort_amended "P" "latest" "error" "error" clientAB false false
    ["a"] ["b"] "zz" (.ansibleError "Failed to find secret zz (ResourceNotFound)")
    (by decide) (by decide)
    (by
      intro t2 ht2
      simp only [List.mem_singleton] at ht2
      subst ht2
      exact ⟨⟨some "x", none⟩, by decide⟩)
    (by decide)

/-- Keyword parameters of `run`'s signature (source lines 126-127); the
method has no `**kwargs`, so any other keyword raises a `TypeError` at
call time. -/
def run_keyword_params : List String :=
  ["variables", "nested", "join", "version_id", "on_missing", "on_denied"]

/-- Options declared by the plugin's own DOCUMENTATION block
(source lines 27-70). -/
def documented_options : List String :=
  ["_terms", "bypath", "nested", "version_id", "version_stage", "join",
   "on_missing", "on_denied"]

/-- C9: the plugin documents `bypath` and `version_stage` as accepted
options, but `run`'s signature has no such keyword parameters (and no
`**kwargs`), so a call supplying either fails instead of succeeding
unchanged — the code contradicts its own DOCUMENTATION. -/
theorem c9_documented_options_not_accepted :
    "version_stage" ∈ documented_options ∧ "version_stage" ∉ run_keyword_params
    ∧ "bypath" ∈ documented_options ∧ "bypath" ∉ run_keyword_params := by decide

/-- C10: a term whose fetch succeeds with the empty string as resolved
value is dropped from the output by the `if value:` truthiness filter,
exactly as if it had been skipped — the batch behaves as if the term were
absent, under every policy pair and either join mode. -/
theorem c10_empty_value_filtered (project_id version_id on_missing on_denied : String)
    (client : String → FetchOutcome) (nested join : Bool)
    (ts1 ts2 : List String) (t : String)
    (h : get_secret_value t client project_id version_id
           (py_lower on_missing) (py_lower on_denied) nested = .ok ⟨some "", none⟩) :
    run project_id (ts1 ++ t :: ts2) client nested join version_id on_missing on_denied
      = run project_id (ts1 ++ ts2) client nested join version_id on_missing on_denied := by
  have hloop : ∀ l1 : List String,
      run_loop client project_id version_id (py_lower on_missing) (py_lower on_denied)
        nested (l1 ++ t :: ts2)
      = run_loop client project_id version_id (py_lower on_missing) (py_lower on_denied)
        nested (l1 ++ ts2) := by
    intro l1
    induction l1 with
    | nil =>
      simp only [List.nil_append, run_loop, h]
      cases run_loop client project_id version_id (py_lower on_missing)
          (py_lower on_denied) nested ts2 with
      | error e => rfl
      | ok p =>
        obtain ⟨vs, ws⟩ := p
        simp
    | cons a l ih =>
      simp only [List.cons_append, run_loop, List.append_eq, ih]
  simp only [run, hloop ts1]

/-- Witness for C10: a secret whose payload is the empty string
contributes nothing — the one-term batch equals the empty batch. -/
theorem c10_empty_value_filtered_witness :
    run "P" ["e"] (clientConst "") false false "latest" "error" "error"
      = run "P" [] (clientConst "") false false "latest" "error" "error" :=
  c10_empty_value_filtered "P" "latest" "error" "error" (clientConst "") false false
    [] [] "e" (by decide)
